import Mathlib

/-!
Verification of `Visualizations/country_decade_medium_map/scripts/
prepare_counts_by_country_decade_medium.py`.

The script is a one-shot batch pipeline: read a master table of museum
object records (plus an optional country-to-region lookup), derive a
region, a normalized country, a creation decade and a coarse medium
group per record, aggregate by the 4-tuple and write the counts.

The embedding below models:
* text cells as `Option String` (`none` is a pandas missing value, NaN);
* year cells as `Option ℤ` holding the result of
  `pd.to_numeric(_, errors="coerce")` (`none` when the cell is missing
  or unparsable; the `_std` year values are whole numbers, so the
  float produced by pandas is modeled by its integer value, and
  `int(np.floor(year / 10.0) * 10)` on such a year is floor division
  by 10, i.e. `year / 10 * 10` with Euclidean integer division);
* a data frame as a list of rows together with boolean flags recording
  which optional columns are present;
* the uncaught `AttributeError` raised by `"".reindex(...)` (when an
  optional column is absent the script binds the plain string `""` and
  then calls the pandas-only method `reindex` on it) as the outcome
  `RunOutcome.crashed`.
-/

namespace DataViz

/-- `MASTER_COUNTRY_COL = "origin_country_std"` from the script config. -/
def MASTER_COUNTRY_COL : String := "origin_country_std"

/-- `MASTER_START_YEAR_COL = "creation_start_year_std"`. -/
def MASTER_START_YEAR_COL : String := "creation_start_year_std"

/-- `MASTER_END_YEAR_COL = "creation_end_year_std"`. -/
def MASTER_END_YEAR_COL : String := "creation_end_year_std"

/-- `MIN_DECADE = 1400`. -/
def MIN_DECADE : ℤ := 1400

/-- `MAX_DECADE = 2020`. -/
def MAX_DECADE : ℤ := 2020

/-- Python's `.lower()` on the character level (ASCII case folding,
which covers every keyword in the script). -/
def lowerChars (s : String) : List Char := s.data.map Char.toLower

/-- Python's substring test `kw in combo`. -/
def hasKw (combo : List Char) (kw : String) : Bool := decide (kw.data <:+: combo)

/-- Python's `any(k in combo for k in kws)`. -/
def anyKw (combo : List Char) (kws : List String) : Bool := kws.any (hasKw combo)

/-- The search string `f"{c} {m}"` built by `categorize_medium` after
lower-casing both fields. -/
def mkCombo (c m : String) : List Char := lowerChars c ++ ' ' :: lowerChars m

/-- `categorize_medium(classification, medium)` from the script, on the
already-stringified field values: lower-case both, join with a single
space, then walk the keyword groups in the fixed order of the code. -/
def categorize_medium (classification medium : String) : String :=
  let combo := mkCombo classification medium
  if anyKw combo ["photograph", "gelatin silver", "albumen print", "photo "] then
    "Photographs"
  else if anyKw combo ["print", "engraving", "etching", "lithograph", "woodcut",
      "screenprint"] then
    "Prints"
  else if anyKw combo ["drawing", "graphite", "pencil", "pen and ink", "watercolor",
      "watercolour"] then
    "Drawings"
  else if anyKw combo ["painting", "oil on canvas", "tempera", "acrylic"] then
    "Paintings"
  else if anyKw combo ["sculpture", "bronze", "marble", "carved stone"] then
    "Sculpture"
  else if anyKw combo ["textile", "tapestry", "silk", "cotton", "linen", "wool"] then
    "Textiles"
  else if anyKw combo ["ceramic", "porcelain", "earthenware", "stoneware", "pottery",
      "glass", "furniture", "decorative art"] then
    "Decorative arts"
  else
    "Other"

/-- The classifier's priority table written out as an explicit ordered
list of (category, keyword set) pairs, following the spec's wording. -/
def mediumTable : List (String × List String) :=
  [("Photographs", ["photograph", "gelatin silver", "albumen print", "photo "]),
   ("Prints", ["print", "engraving", "etching", "lithograph", "woodcut", "screenprint"]),
   ("Drawings", ["drawing", "graphite", "pencil", "pen and ink", "watercolor",
      "watercolour"]),
   ("Paintings", ["painting", "oil on canvas", "tempera", "acrylic"]),
   ("Sculpture", ["sculpture", "bronze", "marble", "carved stone"]),
   ("Textiles", ["textile", "tapestry", "silk", "cotton", "linen", "wool"]),
   ("Decorative arts", ["ceramic", "porcelain", "earthenware", "stoneware", "pottery",
      "glass", "furniture", "decorative art"])]

/-- First category of the table whose keyword set matches the search
string; `"Other"` when none does.  This is the spec's formulation of the
classifier, to be compared with `categorize_medium`. -/
def firstMatch (combo : List Char) : List (String × List String) → String
  | [] => "Other"
  | (cat, kws) :: rest => if anyKw combo kws then cat else firstMatch combo rest

/-- `year = pd.to_numeric(start); if pd.isna(year): year = pd.to_numeric(end)`:
the year used by `compute_decade`, `none` when both fields are missing
or unparsable. -/
def yearOf (start stop : Option ℤ) : Option ℤ :=
  match start with
  | some y => some y
  | none => stop

/-- `compute_decade(row)` from the script: pick the year (start first,
then end), take `int(np.floor(year / 10.0) * 10)` — floor division of
the year by 10, then times 10 — and return NaN (`none`) when no year is
available or the decade falls outside `[MIN_DECADE, MAX_DECADE]`. -/
def compute_decade (start stop : Option ℤ) : Option ℤ :=
  match yearOf start stop with
  | none => none
  | some y =>
    let decade : ℤ := y / 10 * 10
    if decade < MIN_DECADE ∨ decade > MAX_DECADE then none else some decade

/-- A row of the master table.  `country`, `classif`, `medium` are text
cells (`none` = NaN); `start`, `stop` carry the `pd.to_numeric(_,
errors="coerce")` results for `creation_start_year_std` /
`creation_end_year_std` (`none` = missing or unparsable). -/
structure Row where
  country : Option String
  start : Option ℤ
  stop : Option ℤ
  classif : Option String
  medium : Option String
deriving DecidableEq

/-- The master data frame: its rows plus flags recording which of the
configured columns are present (`classification_std` and `medium_std`
are optional). -/
structure MasterTable where
  hasCountryCol : Bool
  hasStartCol : Bool
  hasEndCol : Bool
  hasClassCol : Bool
  hasMediumCol : Bool
  rows : List Row
deriving DecidableEq

/-- The optional flows data frame: (origin_country, region) cell pairs
plus flags for the presence of the two expected columns. -/
structure FlowsTable where
  hasCountryCol : Bool
  hasRegionCol : Bool
  rows : List (Option String × Option String)
deriving DecidableEq

/-- Python's `str.strip()`: drop leading and trailing whitespace. -/
def pyStrip (s : String) : String :=
  String.mk (((s.data.dropWhile Char.isWhitespace).reverse.dropWhile
    Char.isWhitespace).reverse)

/-- Stringification of a possibly-missing text cell.  Pandas
`astype(str)` turns a NaN cell into the literal text `"nan"`, and so
does `str(x or "")` inside `categorize_medium` (NaN is truthy in
Python); a present string cell is returned unchanged. -/
def cellStr : Option String → String
  | none => "nan"
  | some s => s

/-- `flows_df.dropna(subset=[FLOWS_COUNTRY_COL, FLOWS_REGION_COL])`:
keep only the lookup rows where both cells are present. -/
def cleanFlows (rows : List (Option String × Option String)) : List (String × String) :=
  rows.filterMap fun p =>
    match p with
    | (some c, some r) => some (c, r)
    | _ => none

/-- The region cells of the cleaned lookup rows for one country
(`flows_clean.groupby(...)` restricted to that country's group). -/
def regionsFor (rows : List (String × String)) (c : String) : List String :=
  (rows.filter fun p => p.1 == c).map fun p => p.2

/-- `s.value_counts().idxmax()` over the (nonempty) region series of one
country: a region value of maximal occurrence count (the first value
attaining the maximum); `none` exactly on the empty list. -/
def modeOf (l : List String) : Option String := l.argmax fun v => l.count v

/-- The `country_to_region` dictionary of the script, as a lookup
function.  No flows file, or a flows file lacking an expected column,
leaves the dictionary empty; otherwise a country found among the cleaned
rows maps to the mode of its region values. -/
def countryToRegion (ft : Option FlowsTable) (c : String) : Option String :=
  match ft with
  | none => none
  | some t =>
    if t.hasCountryCol && t.hasRegionCol then
      modeOf (regionsFor (cleanFlows t.rows) c)
    else none

/-- `df["region"] = df[col].map(country_to_region)` followed by
`.fillna("Unknown")` (the script's all-`"Unknown"` path for an empty
dictionary coincides with this): the total country→region function. -/
def regionFor (c2r : String → Option String) (c : String) : String :=
  (c2r c).getD "Unknown"

/-- The "Flows columns missing" warning box: shown iff a flows file was
supplied but an expected column is absent. -/
def flowsWarned : Option FlowsTable → Bool
  | none => false
  | some t => !(t.hasCountryCol && t.hasRegionCol)

/-- A record that survived the decade filter, with its derived region,
country and decade; the raw classification/medium cells are carried
along for the later medium-grouping step. -/
structure Derived where
  region : String
  country : String
  decade : ℤ
  classif : Option String
  medium : Option String
deriving DecidableEq

/-- The per-record derivation of `main`: strip the stringified country,
resolve the region from the stripped value, replace an empty stripped
country by `"Unknown"`, and keep the record iff `compute_decade`
returns a decade. -/
def deriveRow (c2r : String → Option String) (r : Row) : Option Derived :=
  let stripped := pyStrip (cellStr r.country)
  match compute_decade r.start r.stop with
  | none => none
  | some d =>
    some { region := regionFor c2r stripped
           country := if stripped = "" then "Unknown" else stripped
           decade := d
           classif := r.classif
           medium := r.medium }

/-- The 4-tuple grouping key (region, country, decade, medium_group). -/
abbrev GroupKey := String × String × ℤ × String

/-- One output row of `counts_by_country_decade_medium.csv`. -/
structure AggRow where
  region : String
  country : String
  decade : ℤ
  medium_group : String
  n_objects : ℕ
deriving DecidableEq

/-- The grouping key of an output row. -/
def AggRow.key (a : AggRow) : GroupKey := (a.region, a.country, a.decade, a.medium_group)

/-- Multiplicity of a key in the key list. -/
def keyCount (keys : List GroupKey) (k : GroupKey) : ℕ :=
  keys.countP fun x => decide (x = k)

/-- `df.groupby(["region", "country", "decade", "medium_group"],
dropna=False).size().reset_index(name="n_objects")`, applied to the list
of group keys (one key per surviving record): one output row per
distinct key, counting the key's occurrences. -/
def aggregate (keys : List GroupKey) : List AggRow :=
  keys.dedup.map fun k => ⟨k.1, k.2.1, k.2.2.1, k.2.2.2, keyCount keys k⟩

/-- How a run of `main` ends, after the two input tables are in memory.
`schemaError` is the fatal "Missing columns in master file" box;
`emptyAfterDecade` / `emptyAfterGroup` are the "No data" boxes that
return before any write; `crashed` is the uncaught `AttributeError`
raised by `"".reindex(...)` when an optional master column is absent;
`wrote` carries the aggregate table handed to the writer. -/
inductive RunOutcome where
  | schemaError (missing : List String)
  | emptyAfterDecade
  | crashed
  | emptyAfterGroup
  | wrote (out : List AggRow)
deriving DecidableEq

/-- `missing_master`: the required master columns that are absent, in
the order the script checks them. -/
def requiredMissing (mt : MasterTable) : List String :=
  (if mt.hasCountryCol then [] else [MASTER_COUNTRY_COL]) ++
    (if mt.hasStartCol then [] else [MASTER_START_YEAR_COL]) ++
      (if mt.hasEndCol then [] else [MASTER_END_YEAR_COL])

/-- `df` after the decade filter: every master row put through
`deriveRow`, keeping the survivors. -/
def derivedOf (mt : MasterTable) (ft : Option FlowsTable) : List Derived :=
  mt.rows.filterMap (deriveRow (countryToRegion ft))

/-- The group key of each surviving record, with its medium group
computed by `categorize_medium` on the stringified raw cells. -/
def keysOf (l : List Derived) : List GroupKey :=
  l.map fun d =>
    (d.region, d.country, d.decade,
      categorize_medium (cellStr d.classif) (cellStr d.medium))

/-- The data core of `main`, from the two loaded tables to the outcome:
column check, region dictionary, per-record derivation with the decade
filter, first empty check, medium grouping (which in the script calls
`.reindex` on the plain string `""` — an uncaught `AttributeError` —
whenever `classification_std` or `medium_std` is absent), aggregation,
second empty check. -/
def run (mt : MasterTable) (ft : Option FlowsTable) : RunOutcome :=
  if requiredMissing mt ≠ [] then .schemaError (requiredMissing mt)
  else if derivedOf mt ft = [] then .emptyAfterDecade
  else if mt.hasClassCol && mt.hasMediumCol then
    if aggregate (keysOf (derivedOf mt ft)) = [] then .emptyAfterGroup
    else .wrote (aggregate (keysOf (derivedOf mt ft)))
  else .crashed

/-- The end-to-end example of the spec's testable properties: three
records and a one-row France→Europe lookup. -/
def mtEx : MasterTable :=
  ⟨true, true, true, true, true,
   [⟨some "France", some 1875, none, some "Painting", some "oil on canvas"⟩,
    ⟨some "France", some 1876, none, some "Print", some "engraving"⟩,
    ⟨some "Japan", some 1630, none, some "", some "porcelain"⟩]⟩

/-- The flows table of the end-to-end example. -/
def ftEx : FlowsTable := ⟨true, true, [(some "France", some "Europe")]⟩

/-- The aggregate output of the end-to-end example. -/
def outEx : List AggRow :=
  [⟨"Europe", "France", 1870, "Paintings", 1⟩,
   ⟨"Europe", "France", 1870, "Prints", 1⟩,
   ⟨"Unknown", "Japan", 1630, "Decorative arts", 1⟩]

/-- A master table with all three required columns but without the
optional `classification_std` column, holding one record that survives
the decade filter. -/
def mtNoClass : MasterTable :=
  ⟨true, true, true, false, true,
   [⟨some "France", some 1875, none, none, some "oil"⟩]⟩

/-- A master table whose single record has no usable year. -/
def mtNoYears : MasterTable :=
  ⟨true, true, true, true, true, [⟨some "France", none, none, none, none⟩]⟩

/-- Like `mtNoClass`, but with `medium_std` absent instead. -/
def mtNoMedium : MasterTable :=
  ⟨true, true, true, true, false,
   [⟨some "France", some 1875, none, some "Painting", none⟩]⟩

/-- Like `mtNoClass`, but with both optional columns absent. -/
def mtNoOpt : MasterTable :=
  ⟨true, true, true, false, false,
   [⟨some "France", some 1875, none, none, none⟩]⟩

/-- A flows table that lacks the expected `region` column. -/
def ftNoRegion : FlowsTable := ⟨true, false, [(some "France", some "Europe")]⟩

/-- The France rows of the spec's region-resolution example. -/
def ftFrance : FlowsTable :=
  ⟨true, true,
   [(some "France", some "Europe"), (some "France", some "Europe"),
    (some "France", some "Asia")]⟩

example : compute_decade (some 1875) none = some 1870 := by decide
example : compute_decade (some 1875) (some 1630) = some 1870 := by decide
example : compute_decade none (some 1630) = some 1630 := by decide
example : compute_decade none none = none := by decide
example : compute_decade (some 1399) none = none := by decide
example : compute_decade (some 2021) none = some 2020 := by decide
example : compute_decade (some 2031) none = none := by decide
example : categorize_medium "" "bronze" = "Sculpture" := by decide
example : categorize_medium "Print" "bronze" = "Prints" := by decide
example : categorize_medium "" "oil on canvas, bronze frame" = "Paintings" := by decide
example : categorize_medium "" "" = "Other" := by decide
example : run mtEx (some ftEx) = .wrote outEx := by decide
example : run mtNoClass none = .crashed := by decide
example : run mtNoYears none = .emptyAfterDecade := by decide

/-- A search string on which every keyword group of a table fails
matches no category: the walk falls through to `"Other"`. -/
theorem firstMatch_all_false (combo : List Char) (tbl : List (String × List String))
    (h : (tbl.all fun p => !anyKw combo p.2) = true) :
    firstMatch combo tbl = "Other" := by
  induction tbl with
  | nil => rfl
  | cons p rest ih =>
    rw [List.all_cons, Bool.and_eq_true] at h
    obtain ⟨cat, kws⟩ := p
    have hfalse : anyKw combo kws = false := by
      simpa using h.1
    rw [firstMatch, hfalse]
    simpa using ih h.2

/-- The multiplicity function `keyCount` agrees with `List.count`. -/
theorem keyCount_eq_count (keys : List GroupKey) (k : GroupKey) :
    keyCount keys k = @List.count GroupKey instBEqOfDecidableEq k keys := rfl

/-- Summing `n_objects` over the aggregate recovers the number of
aggregated keys. -/
theorem aggregate_sum (keys : List GroupKey) :
    ((aggregate keys).map AggRow.n_objects).sum = keys.length := by
  rw [← List.sum_map_count_dedup_eq_length keys, aggregate, List.map_map]
  refine congrArg List.sum (List.map_congr_left fun k _ => ?_)
  exact keyCount_eq_count keys k

/-- The group keys of the aggregate rows are exactly the deduplicated
input keys, hence pairwise distinct. -/
theorem aggregate_keys_nodup (keys : List GroupKey) :
    ((aggregate keys).map AggRow.key).Nodup := by
  have hfun : (AggRow.key ∘ fun k : GroupKey =>
      AggRow.mk k.1 k.2.1 k.2.2.1 k.2.2.2 (keyCount keys k)) = id := by
    funext k
    rfl
  rw [aggregate, List.map_map, hfun, List.map_id]
  exact keys.nodup_dedup

/-- A master row survives `deriveRow` exactly when `compute_decade`
produces a decade for it. -/
theorem deriveRow_isSome_eq (c2r : String → Option String) (r : Row) :
    (deriveRow c2r r).isSome = (compute_decade r.start r.stop).isSome := by
  rw [deriveRow]
  cases compute_decade r.start r.stop <;> rfl

/-- The number of surviving records equals the number of master rows
whose decade is computed. -/
theorem derivedOf_length (mt : MasterTable) (ft : Option FlowsTable) :
    (derivedOf mt ft).length
      = mt.rows.countP fun r => (compute_decade r.start r.stop).isSome := by
  rw [derivedOf, List.length_filterMap_eq_countP]
  exact List.countP_congr fun r _ => by rw [deriveRow_isSome_eq]

/-- Claim C1: `categorize_medium` lower-cases both texts, joins them
with a single space, and returns the first category in the fixed order
Photographs, Prints, Drawings, Paintings, Sculpture, Textiles,
Decorative arts whose keyword set has a member occurring as a substring
of the joined string (`"Other"` when no keyword of any category
matches); a text containing only "bronze" classifies as Sculpture and a
text containing both "print" and "bronze" classifies as Prints. -/
theorem C1_medium_classifier_priority_order :
    (∀ c m, categorize_medium c m = firstMatch (mkCombo c m) mediumTable)
    ∧ (∀ c m, (mediumTable.all fun p => !anyKw (mkCombo c m) p.2) = true →
        categorize_medium c m = "Other")
    ∧ categorize_medium "" "bronze" = "Sculpture"
    ∧ categorize_medium "" "print and bronze" = "Prints" := by
  refine ⟨fun c m => rfl, fun c m h => ?_, by decide, by decide⟩
  have hcf : categorize_medium c m = firstMatch (mkCombo c m) mediumTable := rfl
  rw [hcf]
  exact firstMatch_all_false _ _ h

/-- Witness for C1 at a concrete no-keyword input. -/
theorem C1_witness : categorize_medium "abc" "xyz" = "Other" :=
  C1_medium_classifier_priority_order.2.1 "abc" "xyz" (by decide)

/-- Claim C2: whenever a numeric year `y` is obtained for a record, the
computed decade is `⌊y/10⌋ * 10`, and the record is excluded from the
derived data (dropped by `deriveRow`) iff that decade is strictly below
1400 or strictly above 2020. -/
theorem C2_decade_floor_and_range (s e : Option ℤ) (y : ℤ) (h : yearOf s e = some y) :
    compute_decade s e
      = (if ⌊(y : ℚ) / 10⌋ * 10 < 1400 ∨ ⌊(y : ℚ) / 10⌋ * 10 > 2020 then none
          else some (⌊(y : ℚ) / 10⌋ * 10))
    ∧ ∀ (c2r : String → Option String) (co cl me : Option String),
        (deriveRow c2r ⟨co, s, e, cl, me⟩ = none
          ↔ (⌊(y : ℚ) / 10⌋ * 10 < 1400 ∨ ⌊(y : ℚ) / 10⌋ * 10 > 2020)) := by
  have hfl : (⌊(y : ℚ) / 10⌋ : ℤ) = y / 10 := by
    simpa using Rat.floor_intCast_div_natCast y 10
  have hnorm : compute_decade s e
      = (if y / 10 * 10 < 1400 ∨ y / 10 * 10 > 2020 then none
          else some (y / 10 * 10)) := by
    simp only [compute_decade, h, MIN_DECADE, MAX_DECADE]
  have hDR : ∀ (c2r : String → Option String) (co cl me : Option String),
      (deriveRow c2r ⟨co, s, e, cl, me⟩ = none ↔ compute_decade s e = none) := by
    intro c2r co cl me
    cases hc : compute_decade s e with
    | none => simp [deriveRow, hc]
    | some d => simp [deriveRow, hc]
  refine ⟨by rw [hnorm, hfl], fun c2r co cl me => ?_⟩
  rw [hDR, hnorm, hfl]
  by_cases hC : y / 10 * 10 < 1400 ∨ y / 10 * 10 > 2020
  · simp [hC]
  · simp [hC]

/-- Witness for C2 at start year 1875. -/
theorem C2_witness :
    compute_decade (some 1875) none
      = (if ⌊((1875 : ℤ) : ℚ) / 10⌋ * 10 < 1400 ∨ ⌊((1875 : ℤ) : ℚ) / 10⌋ * 10 > 2020
          then none else some (⌊((1875 : ℤ) : ℚ) / 10⌋ * 10))
    ∧ (deriveRow (countryToRegion none) ⟨some "France", some 1875, none, none, none⟩ = none
        ↔ (⌊((1875 : ℤ) : ℚ) / 10⌋ * 10 < 1400 ∨ ⌊((1875 : ℤ) : ℚ) / 10⌋ * 10 > 2020)) := by
  have h := C2_decade_floor_and_range (some 1875) none 1875 rfl
  exact ⟨h.1, h.2 (countryToRegion none) (some "France") none none⟩

/-- Claim C3: the year is taken from `start_year` first, falling back to
`end_year` when the former is missing or unparsable; a record with
neither year is dropped by `deriveRow` before aggregation and leaves
every run outcome unchanged (it contributes to no aggregate row). -/
theorem C3_start_year_first_then_fallback :
    (∀ (y : ℤ) (e : Option ℤ), yearOf (some y) e = some y)
    ∧ (∀ e : Option ℤ, yearOf none e = e)
    ∧ compute_decade none none = none
    ∧ (∀ (c2r : String → Option String) (co cl me : Option String),
        deriveRow c2r ⟨co, none, none, cl, me⟩ = none)
    ∧ ∀ (f1 f2 f3 f4 f5 : Bool) (rows : List Row) (co cl me : Option String)
        (ft : Option FlowsTable),
        run ⟨f1, f2, f3, f4, f5, (⟨co, none, none, cl, me⟩ : Row) :: rows⟩ ft
          = run ⟨f1, f2, f3, f4, f5, rows⟩ ft := by
  refine ⟨fun y e => rfl, fun e => rfl, rfl, fun c2r co cl me => rfl, ?_⟩
  intro f1 f2 f3 f4 f5 rows co cl me ft
  have hdrop : derivedOf ⟨f1, f2, f3, f4, f5, (⟨co, none, none, cl, me⟩ : Row) :: rows⟩ ft
      = derivedOf ⟨f1, f2, f3, f4, f5, rows⟩ ft := by
    simp only [derivedOf]
    rw [List.filterMap_cons]
    rfl
  simp only [run, requiredMissing, hdrop]

/-- Witness-style corollary of C3 at a concrete yearless record. -/
theorem C3_witness :
    run ⟨true, true, true, true, true,
        [(⟨some "France", none, none, none, none⟩ : Row)]⟩ none
      = run ⟨true, true, true, true, true, ([] : List Row)⟩ none :=
  C3_start_year_first_then_fallback.2.2.2.2 true true true true true []
    (some "France") none none none

/-- Claim C4: with both expected columns present, the region resolver
ignores lookup rows with a missing country or region cell, maps a
resolved country to a region of maximal occurrence count among that
country's remaining rows, resolves France with regions
[Europe, Europe, Asia] to Europe, and resolves every unmapped country to
"Unknown". -/
theorem C4_region_mode (t : FlowsTable) (hc : t.hasCountryCol = true)
    (hr : t.hasRegionCol = true) :
    (∀ c reg, countryToRegion (some t) c = some reg →
        reg ∈ regionsFor (cleanFlows t.rows) c
        ∧ ∀ r ∈ regionsFor (cleanFlows t.rows) c,
            (regionsFor (cleanFlows t.rows) c).count r
              ≤ (regionsFor (cleanFlows t.rows) c).count reg)
    ∧ (∀ (p : Option String × Option String)
        (rows : List (Option String × Option String)),
        (p.1 = none ∨ p.2 = none) → ∀ c : String,
          countryToRegion (some ⟨true, true, p :: rows⟩) c
            = countryToRegion (some ⟨true, true, rows⟩) c)
    ∧ (∀ c, countryToRegion (some t) c = none →
        regionFor (countryToRegion (some t)) c = "Unknown")
    ∧ countryToRegion (some ftFrance) "France" = some "Europe" := by
  refine ⟨?_, ?_, ?_, by decide⟩
  · intro c reg hmode
    simp only [countryToRegion, hc, hr, Bool.and_self, if_true, modeOf] at hmode
    have hmem : reg ∈ (regionsFor (cleanFlows t.rows) c).argmax
        fun v => (regionsFor (cleanFlows t.rows) c).count v := by
      rw [Option.mem_def]
      exact hmode
    refine ⟨List.argmax_mem hmem, fun r hrmem => ?_⟩
    exact Nat.le_of_not_lt (List.not_lt_of_mem_argmax hrmem hmem)
  · intro p rows hmiss c
    obtain ⟨p1, p2⟩ := p
    rcases hmiss with h1 | h2
    · cases h1
      rfl
    · cases h2
      cases p1 <;> rfl
  · intro c hnone
    simp [regionFor, hnone]

/-- Witness for C4 on the France example and an unmapped country. -/
theorem C4_witness :
    "Europe" ∈ regionsFor (cleanFlows ftFrance.rows) "France"
    ∧ regionFor (countryToRegion (some ftFrance)) "Berlin" = "Unknown" := by
  have h := C4_region_mode ftFrance rfl rfl
  exact ⟨(h.1 "France" "Europe" (by decide)).1, h.2.2.1 "Berlin" (by decide)⟩

/-- Claim C5: every written output sums its `n_objects` to the number of
master records whose decade was successfully computed, and no two output
rows share the same (region, country, decade, medium_group) key. -/
theorem C5_output_invariants (mt : MasterTable) (ft : Option FlowsTable)
    (out : List AggRow) (h : run mt ft = .wrote out) :
    (out.map AggRow.n_objects).sum
      = mt.rows.countP (fun r => (compute_decade r.start r.stop).isSome)
    ∧ (out.map AggRow.key).Nodup := by
  have hout : out = aggregate (keysOf (derivedOf mt ft)) := by
    simp only [run] at h
    split_ifs at h
    all_goals cases h
    rfl
  subst hout
  constructor
  · rw [aggregate_sum, keysOf, List.length_map, derivedOf_length]
  · exact aggregate_keys_nodup _

/-- Witness for C5 on the end-to-end example run. -/
theorem C5_witness :
    ((outEx.map AggRow.n_objects).sum
        = mtEx.rows.countP fun r => (compute_decade r.start r.stop).isSome)
    ∧ (outEx.map AggRow.key).Nodup :=
  C5_output_invariants mtEx (some ftEx) outEx (by decide)

/-- Claim C6 evaluated on the code: a master table with all three
required columns but a missing optional column does NOT proceed to an
output — the run ends in the uncaught `AttributeError` raised by
calling `.reindex` on the plain string `""` that stands in for the
absent column.  This holds for a missing `classification_std`, a
missing `medium_std`, and both. -/
theorem C6_missing_optional_column_crashes :
    run mtNoClass none = RunOutcome.crashed
    ∧ run mtNoMedium none = RunOutcome.crashed
    ∧ run mtNoOpt none = RunOutcome.crashed :=
  ⟨by decide, by decide, by decide⟩

/-- Claim C7: a supplied flows table lacking an expected column triggers
the non-fatal "Flows columns missing" warning, and the run continues
with exactly the outcome it would have had with no flows table at all
(it does not abort). -/
theorem C7_flows_missing_columns_degrade (mt : MasterTable) (ft : FlowsTable)
    (h : ft.hasCountryCol = false ∨ ft.hasRegionCol = false) :
    flowsWarned (some ft) = true ∧ run mt (some ft) = run mt none := by
  have hb : (ft.hasCountryCol && ft.hasRegionCol) = false := by
    rcases h with h | h <;> simp [h]
  have hc2r : countryToRegion (some ft) = countryToRegion none := by
    funext c
    simp [countryToRegion, hb]
  constructor
  · simp [flowsWarned, hb]
  · simp only [run, derivedOf, hc2r]

/-- Witness for C7 with a flows table lacking the region column. -/
theorem C7_witness :
    flowsWarned (some ftNoRegion) = true
    ∧ run mtEx (some ftNoRegion) = run mtEx none :=
  C7_flows_missing_columns_degrade mtEx ftNoRegion (Or.inr rfl)

/-- Claim C8: with the required columns present, an empty result halts
the run before any write — zero surviving records end the run at the
"No data" warning (outcome `emptyAfterDecade`, not a crash and not a
write), and a written output is never the result of an empty
aggregation. -/
theorem C8_empty_result_halts (mt : MasterTable) (ft : Option FlowsTable)
    (hreq : requiredMissing mt = []) :
    (derivedOf mt ft = [] → run mt ft = RunOutcome.emptyAfterDecade)
    ∧ ∀ out, run mt ft = .wrote out → out ≠ [] := by
  constructor
  · intro hempty
    simp [run, hreq, hempty]
  · intro out hrun
    simp only [run] at hrun
    split_ifs at hrun with h1 h2 h3 h4
    all_goals cases hrun
    exact h4

/-- Witness for C8 on the yearless one-record table. -/
theorem C8_witness : run mtNoYears none = RunOutcome.emptyAfterDecade :=
  (C8_empty_result_halts mtNoYears none rfl).1 (by decide)

/-- Claim C9: a record whose stringified country strips to the empty
string is grouped under country "Unknown". -/
theorem C9_empty_country_becomes_unknown (c2r : String → Option String) (r : Row)
    (d : Derived) (hstr : pyStrip (cellStr r.country) = "")
    (hd : deriveRow c2r r = some d) :
    d.country = "Unknown" := by
  unfold deriveRow at hd
  cases hc : compute_decade r.start r.stop with
  | none =>
    rw [hc] at hd
    cases hd
  | some dec =>
    rw [hc] at hd
    injection hd with hd
    rw [← hd]
    simp [hstr]

/-- Witness for C9 on a whitespace-only country cell. -/
theorem C9_witness : (⟨"Unknown", "Unknown", 1870, none, none⟩ : Derived).country
    = "Unknown" :=
  C9_empty_country_becomes_unknown (countryToRegion none)
    ⟨some "   ", some 1875, none, none, none⟩
    ⟨"Unknown", "Unknown", 1870, none, none⟩ (by decide) (by decide)

/-- Claim C10: a record whose country cell is missing is stringified to
the literal text "nan", so it is grouped under country "nan" — not
"Unknown" — and (as "nan" is never a key of the region dictionary,
`read_csv` parsing the text "nan" as NaN and `dropna` discarding it) its
region resolves to "Unknown". -/
theorem C10_null_country_grouped_as_nan (c2r : String → Option String) (r : Row)
    (d : Derived) (hnull : r.country = none) (hd : deriveRow c2r r = some d) :
    d.country = "nan" ∧ d.country ≠ "Unknown"
    ∧ (c2r "nan" = none → d.region = "Unknown") := by
  have hstr : pyStrip (cellStr r.country) = "nan" := by
    rw [hnull]
    decide
  unfold deriveRow at hd
  cases hc : compute_decade r.start r.stop with
  | none =>
    rw [hc] at hd
    cases hd
  | some dec =>
    rw [hc] at hd
    injection hd with hd
    refine ⟨by rw [← hd]; simp [hstr], by rw [← hd]; simp [hstr], fun hlookup => ?_⟩
    rw [← hd]
    simp [hstr, regionFor, hlookup]

/-- Witness for C10 on a one-record table with a missing country cell. -/
theorem C10_witness :
    (⟨"Unknown", "nan", 1870, none, none⟩ : Derived).country = "nan"
    ∧ (⟨"Unknown", "nan", 1870, none, none⟩ : Derived).region = "Unknown" := by
  have h := C10_null_country_grouped_as_nan (countryToRegion none)
    ⟨none, some 1875, none, none, none⟩
    ⟨"Unknown", "nan", 1870, none, none⟩ rfl (by decide)
  exact ⟨h.1, h.2.2 rfl⟩

end DataViz
